import Mathlib

/-!
Verification development for the neural-webhook ANPR service.

The Python sources are shallowly embedded as executable Lean definitions:

* `app/utils/plate_normalizer.py` — plate text is modelled as `List Char`
  (Python `str`), camera confidence and thresholds as `ℚ` (Python `float`
  arithmetic, which is exact on all values appearing here), OCR-correction
  counts as `ℕ`.  Rejection-reason strings are modelled by the inductive
  `RejectionReason` tagging the return site that produced them (the claims
  depend only on which reason is produced, never on the formatted text).
* `app/services/event_processor.py` — the per-request pipeline, with the
  network effects (database writes, evidence uploads) passed in as explicit
  outcome parameters and the process-wide counters as an explicit state.
* `app/services/database_service.py` — the resilient writes are modelled as
  state machines over an `attempts` oracle giving the outcome of each
  physical insert, and the reads over a single-attempt oracle.
* `app/services/vault_secret_provider.py` — `_fetch_and_cache` is modelled
  over a fetch-attempt oracle and a signer-refresh outcome.
-/

/- Batteries marks the rational-number operations `@[irreducible]`, which
blocks `decide`-style evaluation of the embedded confidence arithmetic; the
kernel itself is free to unfold them, so re-marking them semireducible is
sound and lets concrete runs of the model be checked by `decide`. -/
attribute [local semireducible] Rat.mul Rat.inv Rat.add Rat.sub

namespace NeuralWebhook

/-! ## Character and string primitives

Python string operations used by the normalizer, on `List Char`.
`upper`/`lower` use core `Char.toUpper`/`Char.toLower` (ASCII case mapping,
which agrees with Python on every character the plate pipeline handles);
`strip` removes the ASCII whitespace characters Python strips by default. -/

/-- Python's default `str.strip` whitespace set (ASCII part). -/
def isStripSpace (c : Char) : Bool :=
  c = ' ' || c = '\t' || c = '\n' || c = '\r' || c = '\x0b' || c = '\x0c'

/-- `s.upper()` on the character list. -/
def toUpperL (s : List Char) : List Char := s.map Char.toUpper

/-- `s.lower()` on the character list. -/
def toLowerL (s : List Char) : List Char := s.map Char.toLower

/-- `s.strip()`: drop leading and trailing whitespace. -/
def stripL (s : List Char) : List Char :=
  ((s.dropWhile isStripSpace).reverse.dropWhile isStripSpace).reverse

/-- `plate_text.upper().strip().replace(' ', '').replace('-', '')`
(`plate_clean` in `normalize_neural_plate`). -/
def cleanPlate (s : List Char) : List Char :=
  ((stripL (toUpperL s)).filter (fun c => c ≠ ' ')).filter (fun c => c ≠ '-')

/-- Character class `[A-Z]` of the plate regexes. -/
def isUpperAZ (c : Char) : Bool := 65 ≤ c.toNat && c.toNat ≤ 90

/-- Character class `[0-9]` of the plate regexes. -/
def isDigit09 (c : Char) : Bool := 48 ≤ c.toNat && c.toNat ≤ 57

/-- A full-string match of a fixed-length character-class pattern, as the
anchored regexes `^...$` of `plate_normalizer.py`. -/
def matchesShape (pat : List (Char → Bool)) (s : List Char) : Bool :=
  (s.length == pat.length) && (s.zip pat).all (fun cp => cp.2 cp.1)

/-- `^[A-Z]{3}[0-9]{3}$` — cars. -/
def carroPat : List (Char → Bool) :=
  [isUpperAZ, isUpperAZ, isUpperAZ, isDigit09, isDigit09, isDigit09]

/-- `^[A-Z]{3}[0-9]{2}[A-Z]$` — new motorcycles. -/
def motoNuevaPat : List (Char → Bool) :=
  [isUpperAZ, isUpperAZ, isUpperAZ, isDigit09, isDigit09, isUpperAZ]

/-- `^[A-Z]{3}[0-9]{2}$` — old motorcycles. -/
def motoAntiguaPat : List (Char → Bool) :=
  [isUpperAZ, isUpperAZ, isUpperAZ, isDigit09, isDigit09]

/-- `^[0-9]{3}[A-Z]{3}$` — motocarros. -/
def motocarroPat : List (Char → Bool) :=
  [isDigit09, isDigit09, isDigit09, isUpperAZ, isUpperAZ, isUpperAZ]

/-- `_is_valid_colombian_plate` of `plate_normalizer.py`. -/
def is_valid_colombian_plate (plate : List Char) : Bool :=
  if plate = [] then false
  else
    let p := stripL (toUpperL plate)
    matchesShape carroPat p || matchesShape motoNuevaPat p ||
      matchesShape motoAntiguaPat p || matchesShape motocarroPat p

/-- `_get_plate_format` of `plate_normalizer.py`. -/
def get_plate_format (plate : List Char) : Option String :=
  if plate = [] then none
  else
    let p := stripL (toUpperL plate)
    if matchesShape carroPat p then some "carro"
    else if matchesShape motoNuevaPat p then some "moto_nueva"
    else if matchesShape motoAntiguaPat p then some "moto_antigua"
    else if matchesShape motocarroPat p then some "motocarro"
    else none

/-- The bidirectional `OCR_CORRECTIONS` table. -/
def ocrLookup : Char → Option Char
  | 'O' => some '0'
  | '0' => some 'O'
  | 'I' => some '1'
  | '1' => some 'I'
  | 'Z' => some '2'
  | '2' => some 'Z'
  | 'S' => some '5'
  | '5' => some 'S'
  | 'B' => some '8'
  | '8' => some 'B'
  | 'G' => some '6'
  | '6' => some 'G'
  | _ => none

/-- One iteration of a positional correction loop of `_apply_ocr_correction`:
at index `i`, if `plate[i]` satisfies `cond` and is in the correction table
and the budget is not exhausted, write the replacement and count it. -/
def ocrFix (cond : Char → Bool) (maxC : ℕ) (plate : List Char)
    (st : List Char × ℕ) (i : ℕ) : List Char × ℕ :=
  match plate.get? i with
  | none => st
  | some c =>
    if cond c then
      match ocrLookup c with
      | none => st
      | some r => if st.2 < maxC then (st.1.set i r, st.2 + 1) else st
    else st

/-- `_apply_ocr_correction` of `plate_normalizer.py`: letters-first template,
then (for length-6 input) the digits-first motocarro template. -/
def apply_ocr_correction (plate : List Char) (maxC : ℕ) : List Char × ℕ :=
  if plate.length < 5 then (plate, 0)
  else
    let p := stripL (toUpperL plate)
    let n := p.length
    let st1 :=
      if 5 ≤ n then
        let sA := (List.range (min 3 n)).foldl (ocrFix (fun c => c.isDigit) maxC p) (p, 0)
        ((List.range (min 6 n)).drop 3).foldl
          (fun st i =>
            if i = 5 ∧ n = 6 then ocrFix (fun c => c.isDigit) maxC p st i
            else ocrFix (fun c => c.isAlpha) maxC p st i) sA
      else (p, 0)
    if is_valid_colombian_plate st1.1 then st1
    else if n = 6 then
      let sB := [0, 1, 2].foldl (ocrFix (fun c => c.isAlpha) maxC p) (p, 0)
      let sC := [3, 4, 5].foldl (ocrFix (fun c => c.isDigit) maxC p) sB
      if is_valid_colombian_plate sC.1 then sC else (p, 0)
    else (p, 0)

/-! ## The normalizer proper -/

/-- The policy slice of `NeuralConfig` consumed by the normalizer and the
pipeline (`config.py`): threshold in percent, foreign-plate policy,
OCR-correction budget, strict mode. -/
structure NeuralConfig where
  min_confidence_neural : ℚ
  reject_foreign_plates : Bool
  max_ocr_corrections_neural : ℕ
  strict_mode : Bool
deriving DecidableEq

/-- Which return site of `normalize_neural_plate` produced the
`rejection_reason` string (the claims depend only on presence and kind). -/
inductive RejectionReason
  | emptyPlate
  | lowConfidence
  | foreignPlate
  | invalidFormat
deriving DecidableEq

/-- `PlateNormalizationResult` of `plate_normalizer.py`. -/
structure PlateNormalizationResult where
  normalized_plate : Option (List Char)
  vehicle_type : Option String
  is_valid : Bool
  is_colombian : Bool
  confidence_normalized : ℚ
  ocr_corrections_applied : ℕ
  rejection_reason : Option RejectionReason
deriving DecidableEq

/-- `COLOMBIA_COUNTRY_CODES` membership test together with the
`country is None` escape of `normalize_neural_plate`. -/
def is_country_colombian (country : Option String) : Bool :=
  country = none || country = some "170" || country = some "210" || country = some ""

/-- Confidence normalization, step 1 of `normalize_neural_plate`:
percent-to-fraction conversion and clamp to `[0, 1]`. -/
def normalizeConfidence (confidence : ℚ) : ℚ :=
  max 0 (min 1 (if confidence > 1 then confidence / 100 else confidence))

/-- The empty/`UNKNOWN`/`none` sentinel test of `normalize_neural_plate`
(`not plate_text or plate_text.lower() in ['unknown', 'none', '']`). -/
def isEmptySentinel (plate_text : Option (List Char)) : Prop :=
  plate_text = none ∨ plate_text = some [] ∨
    toLowerL (plate_text.getD []) ∈ ["unknown".toList, "none".toList, ([] : List Char)]

instance (plate_text : Option (List Char)) : Decidable (isEmptySentinel plate_text) := by
  unfold isEmptySentinel; infer_instance

/-- `normalize_neural_plate` of `plate_normalizer.py`. -/
def normalize_neural_plate (plate_text : Option (List Char)) (confidence : ℚ)
    (country : Option String) (vehicle_type : Option String)
    (config : NeuralConfig) : PlateNormalizationResult :=
  let cn := normalizeConfidence confidence
  let minc := config.min_confidence_neural / 100
  let maxc := config.max_ocr_corrections_neural
  if isEmptySentinel plate_text then
    ⟨none, vehicle_type, false, false, cn, 0, some .emptyPlate⟩
  else
    let plate_clean := cleanPlate (plate_text.getD [])
    if cn < minc then
      ⟨some plate_clean, vehicle_type, false, false, cn, 0, some .lowConfidence⟩
    else if is_valid_colombian_plate plate_clean then
      ⟨some plate_clean, vehicle_type, true, true, cn, 0, none⟩
    else
      let cc := apply_ocr_correction plate_clean maxc
      if 0 < cc.2 ∧ is_valid_colombian_plate cc.1 = true then
        ⟨some cc.1, vehicle_type, true, true, cn, cc.2, none⟩
      else if config.reject_foreign_plates ∧ is_country_colombian country = false then
        ⟨some plate_clean, vehicle_type, false, false, cn, 0, some .foreignPlate⟩
      else
        ⟨some plate_clean, vehicle_type, false, false, cn, 0, some .invalidFormat⟩

/-- Default policy values from `config.py`
(`MIN_CONFIDENCE_NEURAL=85`, `REJECT_FOREIGN_PLATES=true`,
`MAX_OCR_CORRECTIONS_NEURAL=1`, `STRICT_MODE=false`). -/
def defaultConfig : NeuralConfig := ⟨85, true, 1, false⟩

example :
    (normalize_neural_plate (some "ABC123".toList) 95 none none defaultConfig).is_valid
      = true := by decide

example :
    (normalize_neural_plate (some "A8C123".toList) 95 none none defaultConfig).normalized_plate
      = some "ABC123".toList := by decide

example :
    (normalize_neural_plate (some "A8C123".toList) 95 none none defaultConfig).ocr_corrections_applied
      = 1 := by decide

example :
    (normalize_neural_plate (some "XYZ999".toList) 95 (some "999") none defaultConfig).is_valid
      = true := by decide

example :
    (normalize_neural_plate (some "ABC123".toList) 40 none none defaultConfig).rejection_reason
      = some .lowConfidence := by decide

/-! ## Event pipeline (`event_processor.py`)

`process_webhook_event` is modelled from the point where the request JSON
has been decoded into the `infoplate` fields.  The network effects are
explicit parameters: `rejectionSave` is the outcome of the
`save_rejected_plate_wh` call on the reject path (an exception is caught and
only logged, so its value never reaches the response), `saveEventResult` is
the value returned by `db_service.save_event` (which catches its own
exceptions and returns an optional id, never raising), and `savedImages`
are the bucket URLs accumulated by the evidence-upload loop (each upload is
wrapped in its own try/except, failures being logged and skipped).  The
process-wide `_total_events`/`_last_event_time` pair is the explicit
`ProcState`, timestamps abstracted as `ℕ`; echo-only response fields
(camera name, raw confidence string, capture time) are omitted. -/

/-- The processor's mutable counters
(`NeuralEventProcessor._total_events`, `_last_event_time`). -/
structure ProcState where
  total_events : ℕ
  last_event_time : Option ℕ
deriving DecidableEq

/-- One entry of the `created_events` response list. -/
structure CreatedEvent where
  event_id : Option ℕ
  image_urls : List String
  normalized_plate : Option (List Char)
  ocr_corrections : ℕ
deriving DecidableEq

/-- One entry of the `rejected_events` response list. -/
structure RejectedEvent where
  raw_plate : Option (List Char)
  confidence : ℚ
  rejection_reason : Option RejectionReason
deriving DecidableEq

/-- The response dict built by `process_webhook_event` (the `events` /
`rejections` keys are emitted only when the lists are non-empty; the lists
themselves are modelled unconditionally). -/
structure ProcessResponse where
  status_ok : Bool
  events_created : ℕ
  events_rejected : ℕ
  total_events : ℕ
  created : List CreatedEvent
  rejected : List RejectedEvent
deriving DecidableEq

/-- The `if plate == "UNKNOWN" or not plate: plate = None` step. -/
def parse_neural_plate (rawPlate : List Char) : Option (List Char) :=
  if rawPlate = "UNKNOWN".toList ∨ rawPlate = [] then none else some rawPlate

/-- `process_webhook_event` of `event_processor.py` (non-exceptional path;
a failure of the outer try/except instead produces an error response and
leaves the counters untouched).  Returns the `(first_event_id, response)`
pair of the Python function together with the updated counter state. -/
def process_webhook_event (config : NeuralConfig) (st : ProcState)
    (rawPlate : List Char) (confidence : ℚ)
    (rejectionSave : Except Unit (Option ℕ)) (saveEventResult : Option ℕ)
    (savedImages : List String) (now : ℕ) :
    Option ℕ × ProcessResponse × ProcState :=
  let plate := parse_neural_plate rawPlate
  let result := normalize_neural_plate plate confidence none none config
  let created : List CreatedEvent :=
    if result.is_valid then
      [⟨saveEventResult, savedImages, result.normalized_plate,
        result.ocr_corrections_applied⟩]
    else []
  let rejected : List RejectedEvent :=
    if result.is_valid then []
    else [⟨plate, result.confidence_normalized, result.rejection_reason⟩]
  let st' : ProcState := ⟨st.total_events + created.length, some now⟩
  let firstId : Option ℕ :=
    match created with
    | [] => none
    | e :: _ => e.event_id
  (firstId,
   ⟨true, created.length, rejected.length, st'.total_events, created, rejected⟩,
   st')

/-! ## Resilient store (`database_service.py`)

The write path is a state machine over an `attempts` oracle: `attempts i`
is the outcome of the `i`-th physical `INSERT` (`_execute_save_event` /
`_execute_save_rejected`), distinguishing an auth-classified exception
(`is_auth_error`) from any other exception.  `onAuthError` models the
`self.on_auth_error` callback: `none` when unregistered, `some b` when
registered and reporting `b`.  Each model returns the optional id together
with the number of physical attempts performed. -/

/-- Outcome of one physical insert attempt. -/
inductive DbAttempt
  | ok (id : Option ℕ)
  | authErr
  | otherErr
deriving DecidableEq

/-- `save_event` of `database_service.py`. -/
def save_event (onAuthError : Option Bool) (attempts : ℕ → DbAttempt) :
    Option ℕ × ℕ :=
  match attempts 0 with
  | .ok id => (id, 1)
  | .authErr =>
    match onAuthError with
    | some true =>
      match attempts 1 with
      | .ok id => (id, 2)
      | .authErr => (none, 2)
      | .otherErr => (none, 2)
    | some false => (none, 1)
    | none => (none, 1)
  | .otherErr => (none, 1)

/-- `save_rejected_plate_wh` of `database_service.py` (same retry protocol
as `save_event`, over the rejected-plates insert). -/
def save_rejected_plate_wh (onAuthError : Option Bool) (attempts : ℕ → DbAttempt) :
    Option ℕ × ℕ :=
  match attempts 0 with
  | .ok id => (id, 1)
  | .authErr =>
    match onAuthError with
    | some true =>
      match attempts 1 with
      | .ok id => (id, 2)
      | .authErr => (none, 2)
      | .otherErr => (none, 2)
    | some false => (none, 1)
    | none => (none, 1)
  | .otherErr => (none, 1)

/-- Error class of a read-side query failure. -/
inductive DbErr
  | auth
  | other
deriving DecidableEq

/-- A row of `detected_plates_wh_devices` as selected by the read queries
(the row-to-dict conversion in the Python code is a field-for-field copy,
modelled as the identity on rows). -/
structure EventRow where
  id : ℕ
  plate : Option (List Char)
deriving DecidableEq

/-- The aggregate row of `get_event_stats`. -/
structure EventStats where
  total_events : ℕ
  events_today : ℕ
  unique_plates : ℕ
  events_last_hour : ℕ
deriving DecidableEq

/-- `get_recent_events` of `database_service.py`: one query on the read
pool inside a `try/except` that converts every failure into `[]`.  The
second component counts the physical query attempts performed. -/
def get_recent_events (attempts : ℕ → Except DbErr (List EventRow)) :
    List EventRow × ℕ :=
  match attempts 0 with
  | .ok rows => (rows, 1)
  | .error _ => ([], 1)

/-- `get_events_by_plate` of `database_service.py`: same shape as
`get_recent_events` with the plate filter folded into the oracle. -/
def get_events_by_plate (attempts : ℕ → Except DbErr (List EventRow)) :
    List EventRow × ℕ :=
  match attempts 0 with
  | .ok rows => (rows, 1)
  | .error _ => ([], 1)

/-- `get_event_stats` of `database_service.py`: a `None` row or any
exception becomes the all-zero statistics dict. -/
def get_event_stats (attempts : ℕ → Except DbErr (Option EventStats)) :
    EventStats × ℕ :=
  match attempts 0 with
  | .ok (some row) => (row, 1)
  | .ok none => (⟨0, 0, 0, 0⟩, 1)
  | .error _ => (⟨0, 0, 0, 0⟩, 1)

/-! ## Vault secret provider (`vault_secret_provider.py`)

`_fetch_and_cache` is modelled over a fetch-attempt oracle.  A
`ServiceError` with status 401/403 is `authErr`; any other `ServiceError`
is `svcErr`; a non-`ServiceError` exception (not caught by the
`except ServiceError` handler) is `otherErr`.  `refreshResult` is the
outcome of the `_refresh_signer()` call (which itself re-raises on
failure).  The model returns the propagated result, the number of fetch
attempts, and the number of `_refresh_signer` invocations. -/

/-- Outcome of one `get_secret_bundle_by_name` call. -/
inductive FetchOutcome
  | ok (v : String)
  | authErr
  | svcErr
  | otherErr
deriving DecidableEq

/-- The error propagated out of `_fetch_and_cache`. -/
inductive FetchErr
  | auth
  | svc
  | other
  | refreshFailed
deriving DecidableEq

/-- Replace-or-insert into the `_cache` map keyed by secret name. -/
def cacheInsert (cache : List (String × String × ℚ)) (name : String)
    (v : String × ℚ) : List (String × String × ℚ) :=
  (name, v) :: cache.filter (fun e => e.1 ≠ name)

/-- `_fetch_and_cache` of `vault_secret_provider.py`. -/
def fetch_and_cache (secretName : String) (now : ℚ)
    (cache : List (String × String × ℚ)) (attempts : ℕ → FetchOutcome)
    (refreshResult : Except Unit Unit) :
    Except FetchErr (String × List (String × String × ℚ)) × ℕ × ℕ :=
  match attempts 0 with
  | .ok v => (.ok (v, cacheInsert cache secretName (v, now)), 1, 0)
  | .authErr =>
    match refreshResult with
    | .error _ => (.error .refreshFailed, 1, 1)
    | .ok _ =>
      match attempts 1 with
      | .ok v => (.ok (v, cacheInsert cache secretName (v, now)), 2, 1)
      | .authErr => (.error .auth, 2, 1)
      | .svcErr => (.error .svc, 2, 1)
      | .otherErr => (.error .other, 2, 1)
  | .svcErr => (.error .svc, 1, 0)
  | .otherErr => (.error .other, 1, 0)

/-! ## Helper lemmas: ASCII case mapping -/

theorem toNat_ofNat_valid (n : ℕ) (h : n.isValidChar) : (Char.ofNat n).toNat = n := by
  rw [Char.ofNat, dif_pos h]; rfl

theorem toLower_toNat (c : Char) :
    c.toLower.toNat = if 65 ≤ c.toNat ∧ c.toNat ≤ 90 then c.toNat + 32 else c.toNat := by
  simp only [Char.toLower, ge_iff_le]
  by_cases h : 65 ≤ c.toNat ∧ c.toNat ≤ 90
  · rw [if_pos h, if_pos h, toNat_ofNat_valid _ (Or.inl (by omega))]
  · rw [if_neg h, if_neg h]

theorem toUpper_toNat (c : Char) :
    c.toUpper.toNat = if 97 ≤ c.toNat ∧ c.toNat ≤ 122 then c.toNat - 32 else c.toNat := by
  simp only [Char.toUpper, ge_iff_le]
  by_cases h : 97 ≤ c.toNat ∧ c.toNat ≤ 122
  · rw [if_pos h, if_pos h, toNat_ofNat_valid _ (Or.inl (by omega))]
  · rw [if_neg h, if_neg h]

theorem char_eq_of_toNat_eq {c d : Char} (h : c.toNat = d.toNat) : c = d := by
  rw [← Char.ofNat_toNat c, h, Char.ofNat_toNat]

theorem toUpper_eq_of_toLower_eq {c lo up : Char} (h : c.toLower = lo)
    (h1 : 97 ≤ lo.toNat) (h2 : lo.toNat ≤ 122) (h3 : up.toNat = lo.toNat - 32) :
    c.toUpper = up := by
  apply char_eq_of_toNat_eq
  have hl := toLower_toNat c
  have hu := toUpper_toNat c
  rw [h] at hl
  split at hl <;> split at hu <;> omega

/-! ## Helper lemmas: cleaning only shortens, valid plates are long -/

theorem length_stripL_le (s : List Char) : (stripL s).length ≤ s.length := by
  unfold stripL
  rw [List.length_reverse]
  calc ((s.dropWhile isStripSpace).reverse.dropWhile isStripSpace).length
      ≤ (s.dropWhile isStripSpace).reverse.length :=
        (List.dropWhile_sublist _).length_le
    _ = (s.dropWhile isStripSpace).length := List.length_reverse _
    _ ≤ s.length := (List.dropWhile_sublist _).length_le

theorem length_cleanPlate_le (s : List Char) : (cleanPlate s).length ≤ s.length := by
  unfold cleanPlate
  calc (((stripL (toUpperL s)).filter (fun c => c ≠ ' ')).filter (fun c => c ≠ '-')).length
      ≤ ((stripL (toUpperL s)).filter (fun c => c ≠ ' ')).length :=
        List.length_filter_le _ _
    _ ≤ (stripL (toUpperL s)).length := List.length_filter_le _ _
    _ ≤ (toUpperL s).length := length_stripL_le _
    _ = s.length := List.length_map _ _

theorem matchesShape_length {pat : List (Char → Bool)} {s : List Char}
    (h : matchesShape pat s = true) : s.length = pat.length := by
  unfold matchesShape at h
  rw [Bool.and_eq_true, Nat.beq_eq_true_eq] at h
  exact h.1

theorem valid_plate_length {q : List Char}
    (h : is_valid_colombian_plate q = true) : 5 ≤ q.length := by
  unfold is_valid_colombian_plate at h
  split at h
  · exact absurd h (by decide)
  · have hle : (stripL (toUpperL q)).length ≤ q.length := by
      calc (stripL (toUpperL q)).length ≤ (toUpperL q).length := length_stripL_le _
        _ = q.length := List.length_map _ _
    simp only [Bool.or_eq_true] at h
    rcases h with ((h | h) | h) | h <;>
      · have := matchesShape_length h
        simp [carroPat, motoNuevaPat, motoAntiguaPat, motocarroPat] at this
        omega

/-! ## Helper lemmas: a shape-matching plate is not the empty/unknown sentinel -/

theorem map_toUpper_of_map_toLower :
    ∀ (pt lo : List Char), pt.map Char.toLower = lo →
      (∀ c ∈ lo, 97 ≤ c.toNat ∧ c.toNat ≤ 122) →
      pt.map Char.toUpper = lo.map (fun c => Char.ofNat (c.toNat - 32)) := by
  intro pt
  induction pt with
  | nil =>
    intro lo h _
    rw [List.map_nil] at h
    subst h
    rfl
  | cons c tl ih =>
    intro lo h hlo
    rw [List.map_cons] at h
    subst h
    rw [List.map_cons, List.map_cons]
    have hc := hlo c.toLower (List.mem_cons_self _ _)
    refine congrArg₂ List.cons ?_ (ih _ rfl fun d hd => hlo d (List.mem_cons_of_mem _ hd))
    exact toUpper_eq_of_toLower_eq rfl hc.1 hc.2
      (toNat_ofNat_valid _ (Or.inl (by omega)))

theorem toUpperL_of_toLowerL_unknown {pt : List Char}
    (h : toLowerL pt = "unknown".toList) : toUpperL pt = "UNKNOWN".toList := by
  have hm := map_toUpper_of_map_toLower pt "unknown".toList h (by decide)
  rw [toUpperL, hm]
  decide

theorem not_sentinel_of_valid {pt : List Char}
    (h : is_valid_colombian_plate (cleanPlate pt) = true) :
    ¬ isEmptySentinel (some pt) := by
  intro hs
  rcases hs with h1 | h2 | h3
  · exact Option.noConfusion h1
  · rw [Option.some.injEq] at h2
    subst h2
    exact absurd h (by decide)
  · simp only [Option.getD_some, List.mem_cons, List.not_mem_nil, or_false] at h3
    rcases h3 with hu | hn | he
    · have hup := toUpperL_of_toLowerL_unknown hu
      unfold cleanPlate at h
      rw [hup] at h
      exact absurd h (by decide)
    · have hlen : pt.length = 4 := by
        have := congrArg List.length hn
        simpa [toLowerL] using this
      have h5 := valid_plate_length h
      have hcl := length_cleanPlate_le pt
      omega
    · have : pt = [] := by
        have := congrArg List.length he
        simpa [toLowerL] using this
      subst this
      exact absurd h (by decide)

/-! ## Helper lemmas: the OCR-correction budget -/

theorem ocrFix_le {cond : Char → Bool} {maxC : ℕ} {plate : List Char}
    (st : List Char × ℕ) (i : ℕ) (h : st.2 ≤ maxC) :
    (ocrFix cond maxC plate st i).2 ≤ maxC := by
  unfold ocrFix
  rcases plate.get? i with _ | c
  · exact h
  · dsimp only
    split
    · rcases ocrLookup c with _ | r
      · exact h
      · dsimp only
        split
        · next hlt => omega
        · exact h
    · exact h

theorem foldl_preserves_le {m : ℕ} {f : List Char × ℕ → ℕ → List Char × ℕ}
    (hf : ∀ st i, st.2 ≤ m → (f st i).2 ≤ m) :
    ∀ (l : List ℕ) (st : List Char × ℕ), st.2 ≤ m → (l.foldl f st).2 ≤ m := by
  intro l
  induction l with
  | nil => intro st h; exact h
  | cons a tl ih => intro st h; exact ih _ (hf st a h)

theorem apply_ocr_correction_le (plate : List Char) (maxC : ℕ) :
    (apply_ocr_correction plate maxC).2 ≤ maxC := by
  unfold apply_ocr_correction
  split
  · exact Nat.zero_le _
  · have hA : ∀ (cond : Char → Bool) (l : List ℕ) (st : List Char × ℕ),
        st.2 ≤ maxC →
        (l.foldl (ocrFix cond maxC (stripL (toUpperL plate))) st).2 ≤ maxC :=
      fun cond => foldl_preserves_le (fun st i => ocrFix_le st i)
    have hB : ∀ (l : List ℕ) (st : List Char × ℕ), st.2 ≤ maxC →
        (l.foldl (fun st i =>
          if i = 5 ∧ (stripL (toUpperL plate)).length = 6 then
            ocrFix (fun c => c.isDigit) maxC (stripL (toUpperL plate)) st i
          else ocrFix (fun c => c.isAlpha) maxC (stripL (toUpperL plate)) st i) st).2
          ≤ maxC := by
      refine foldl_preserves_le fun st i h => ?_
      split
      · exact ocrFix_le st i h
      · exact ocrFix_le st i h
    dsimp only
    repeat' split
    all_goals
      first
        | exact Nat.zero_le _
        | exact hB _ _ (hA _ _ _ (Nat.zero_le _))
        | exact hA _ _ _ (hA _ _ _ (Nat.zero_le _))

theorem apply_ocr_correction_short {plate : List Char} (maxC : ℕ)
    (h : plate.length < 5) : apply_ocr_correction plate maxC = (plate, 0) := by
  unfold apply_ocr_correction
  rw [if_pos h]

/-! ## Claim theorems -/

/-- C5: for every input to the normalizer, `is_valid` is true iff
`rejection_reason` is absent, and whenever `is_valid` is true the
`normalized_plate` is present. -/
theorem normalize_validity_invariant (pt : Option (List Char)) (conf : ℚ)
    (country vt : Option String) (cfg : NeuralConfig) :
    ((normalize_neural_plate pt conf country vt cfg).is_valid = true ↔
      (normalize_neural_plate pt conf country vt cfg).rejection_reason = none) ∧
    ((normalize_neural_plate pt conf country vt cfg).is_valid = false ∨
      ((normalize_neural_plate pt conf country vt cfg).normalized_plate).isSome = true) := by
  unfold normalize_neural_plate
  dsimp only
  repeat' split
  all_goals simp

/-- C10: for every input to the normalizer, the `is_colombian` flag of the
result equals its `is_valid` flag, so it carries no further information. -/
theorem normalize_is_colombian_eq_is_valid (pt : Option (List Char)) (conf : ℚ)
    (country vt : Option String) (cfg : NeuralConfig) :
    (normalize_neural_plate pt conf country vt cfg).is_colombian =
      (normalize_neural_plate pt conf country vt cfg).is_valid := by
  unfold normalize_neural_plate
  dsimp only
  repeat' split
  all_goals simp

/-- C1 (counterexample): normalizing plate `"ABC123"` with confidence 95
under the default policy (min-confidence 85) is accepted, yet the result's
`vehicle_type` is not the format-classifier tag of the normalized plate
(`some "carro"`): the classifier result is computed only for logging. -/
theorem vehicle_type_not_format_tag :
    (normalize_neural_plate (some "ABC123".toList) 95 none none defaultConfig).is_valid
        = true ∧
    (normalize_neural_plate (some "ABC123".toList) 95 none none defaultConfig).vehicle_type
        ≠ get_plate_format "ABC123".toList := by
  decide

/-- C1 (amended): for every input, the result's `vehicle_type` is the
`declaredVehicleType` argument passed through unchanged — never the
format-classifier tag; the `"ABC123"`/95/min-85 example is accepted with
zero corrections, with `vehicle_type` equal to the declared argument. -/
theorem vehicle_type_passthrough :
    (∀ (pt : Option (List Char)) (conf : ℚ) (country vt : Option String)
        (cfg : NeuralConfig),
      (normalize_neural_plate pt conf country vt cfg).vehicle_type = vt) ∧
    (normalize_neural_plate (some "ABC123".toList) 95 none none defaultConfig).is_valid
        = true ∧
    (normalize_neural_plate (some "ABC123".toList) 95 none none
        defaultConfig).ocr_corrections_applied = 0 ∧
    (normalize_neural_plate (some "ABC123".toList) 95 (some "170")
        (some "camioneta") defaultConfig).vehicle_type = some "camioneta" := by
  refine ⟨fun pt conf country vt cfg => ?_, by decide, by decide, by decide⟩
  unfold normalize_neural_plate
  dsimp only
  repeat' split
  all_goals simp

/-- C8: the reported OCR-correction count never exceeds the configured
budget; a cleaned plate shorter than 5 characters is never corrected; and
plate `"A8C123"` with confidence 95 and budget 1 is accepted as `"ABC123"`
with exactly one correction. -/
theorem ocr_correction_budget :
    (∀ (pt : Option (List Char)) (conf : ℚ) (country vt : Option String)
        (cfg : NeuralConfig),
      (normalize_neural_plate pt conf country vt cfg).ocr_corrections_applied
          ≤ cfg.max_ocr_corrections_neural ∧
      ((cleanPlate (pt.getD [])).length < 5 →
        (normalize_neural_plate pt conf country vt cfg).ocr_corrections_applied = 0)) ∧
    (normalize_neural_plate (some "A8C123".toList) 95 none none
        defaultConfig).is_valid = true ∧
    (normalize_neural_plate (some "A8C123".toList) 95 none none
        defaultConfig).normalized_plate = some "ABC123".toList ∧
    (normalize_neural_plate (some "A8C123".toList) 95 none none
        defaultConfig).ocr_corrections_applied = 1 := by
  refine ⟨fun pt conf country vt cfg => ⟨?_, fun hshort => ?_⟩, by decide, by decide, by decide⟩
  · unfold normalize_neural_plate
    dsimp only
    repeat' split
    all_goals simp
    exact apply_ocr_correction_le _ _
  · unfold normalize_neural_plate
    dsimp only
    rw [apply_ocr_correction_short _ hshort]
    repeat' split
    all_goals simp_all

/-- C8 (witness): at the concrete short plate `"AB1"` the hypothesis of the
short-plate clause holds and the correction count is 0. -/
theorem ocr_correction_budget_witness :
    (cleanPlate ((some "AB1".toList).getD [])).length < 5 ∧
    (normalize_neural_plate (some "AB1".toList) 95 none none
        defaultConfig).ocr_corrections_applied = 0 :=
  ⟨by decide,
   (ocr_correction_budget.1 (some "AB1".toList) 95 none none defaultConfig).2
     (by decide)⟩

/-- C6: any input whose cleaned text matches one of the four domestic
shapes and whose confidence passes the gate is accepted immediately —
`is_valid` and `is_colombian` true, zero corrections, normalized plate equal
to the cleaned text — for every reported country code and every
`reject_foreign_plates` policy. -/
theorem format_overrides_country (pt : List Char) (conf : ℚ)
    (country vt : Option String) (cfg : NeuralConfig)
    (hfmt : is_valid_colombian_plate (cleanPlate pt) = true)
    (hconf : ¬ normalizeConfidence conf < cfg.min_confidence_neural / 100) :
    (normalize_neural_plate (some pt) conf country vt cfg).is_valid = true ∧
    (normalize_neural_plate (some pt) conf country vt cfg).is_colombian = true ∧
    (normalize_neural_plate (some pt) conf country vt cfg).ocr_corrections_applied
        = 0 ∧
    (normalize_neural_plate (some pt) conf country vt cfg).normalized_plate
        = some (cleanPlate pt) := by
  have hs := not_sentinel_of_valid hfmt
  unfold normalize_neural_plate
  dsimp only
  rw [if_neg hs]
  simp only [Option.getD_some]
  rw [if_neg hconf, if_pos hfmt]
  exact ⟨rfl, rfl, rfl, rfl⟩

/-- C6 (witness): plate `"XYZ999"`, confidence 95, a foreign reported
country code and `reject_foreign_plates = true` — the format matches, the
gate passes, and the plate is accepted. -/
theorem format_overrides_country_witness :
    is_valid_colombian_plate (cleanPlate "XYZ999".toList) = true ∧
    ¬ normalizeConfidence 95 < defaultConfig.min_confidence_neural / 100 ∧
    (normalize_neural_plate (some "XYZ999".toList) 95 (some "840") none
        defaultConfig).is_valid = true ∧
    (normalize_neural_plate (some "XYZ999".toList) 95 (some "840") none
        defaultConfig).is_colombian = true ∧
    (normalize_neural_plate (some "XYZ999".toList) 95 (some "840") none
        defaultConfig).ocr_corrections_applied = 0 := by
  have h := format_overrides_country "XYZ999".toList 95 (some "840") none
    defaultConfig (by decide) (by decide)
  exact ⟨by decide, by decide, h.1, h.2.1, h.2.2.1⟩

/-- C2 (counterexample): processing an inbound event that normalization
rejects (empty plate text) does change `last_event_time` — it is set to the
processing time on the reject path as well, contradicting the claim that it
is updated only on the accept path. -/
theorem last_event_time_updated_on_reject :
    (process_webhook_event defaultConfig ⟨0, none⟩ [] 95 (.ok (some 1)) none
        [] 5).2.2.last_event_time
      ≠ (⟨0, none⟩ : ProcState).last_event_time := by
  decide

/-- C2 (amended): on every event rejected by normalization, the running
counter `total_events` is left unchanged (it is incremented by the length of
the empty created-events list), but `last_event_time` is set to the
processing time on both paths, not only on the accept path. -/
theorem reject_path_counter_frame (cfg : NeuralConfig) (st : ProcState)
    (rawPlate : List Char) (conf : ℚ) (rejSave : Except Unit (Option ℕ))
    (sev : Option ℕ) (imgs : List String) (now : ℕ)
    (h : (normalize_neural_plate (parse_neural_plate rawPlate) conf none none
        cfg).is_valid = false) :
    (process_webhook_event cfg st rawPlate conf rejSave sev imgs
        now).2.2.total_events = st.total_events ∧
    (process_webhook_event cfg st rawPlate conf rejSave sev imgs
        now).2.2.last_event_time = some now := by
  unfold process_webhook_event
  dsimp only
  rw [if_neg (by simp [h])]
  exact ⟨rfl, rfl⟩

/-- C2 (amended, witness): the empty raw plate is rejected; at that input
the counter stays at its old value 3 and `last_event_time` becomes the
processing time 9. -/
theorem reject_path_counter_frame_witness :
    (normalize_neural_plate (parse_neural_plate []) 95 none none
        defaultConfig).is_valid = false ∧
    (process_webhook_event defaultConfig ⟨3, some 1⟩ [] 95 (.ok none) none
        [] 9).2.2.total_events = 3 ∧
    (process_webhook_event defaultConfig ⟨3, some 1⟩ [] 95 (.ok none) none
        [] 9).2.2.last_event_time = some 9 := by
  have h := reject_path_counter_frame defaultConfig ⟨3, some 1⟩ [] 95
    (.ok none) none [] 9 (by decide)
  exact ⟨by decide, h.1, h.2⟩

/-- C3 (counterexample): an accepted event (`"ABC123"`, confidence 95) whose
`save_event` call reports failure (returns no id) is still reported among
the created events of the response — as an entry with a null `event_id` —
contradicting the claim that it is not reported there. -/
theorem failed_save_still_reported_created :
    (process_webhook_event defaultConfig ⟨0, none⟩ "ABC123".toList 95
        (.ok none) none [] 5).2.1.created
      = [⟨none, [], some "ABC123".toList, 0⟩] ∧
    (process_webhook_event defaultConfig ⟨0, none⟩ "ABC123".toList 95
        (.ok none) none [] 5).2.1.events_created = 1 := by
  decide

/-- C3 (amended): for every accepted event whose persistence fails
(`save_event` returns no id), the pipeline still returns an ok-shaped
response and a null first event id, and the event appears in the
created-events list as a single entry with a null `event_id`, counted in
`events_created`. -/
theorem failed_save_degrades (cfg : NeuralConfig) (st : ProcState)
    (rawPlate : List Char) (conf : ℚ) (rejSave : Except Unit (Option ℕ))
    (imgs : List String) (now : ℕ)
    (h : (normalize_neural_plate (parse_neural_plate rawPlate) conf none none
        cfg).is_valid = true) :
    (process_webhook_event cfg st rawPlate conf rejSave none imgs now).1
        = none ∧
    (process_webhook_event cfg st rawPlate conf rejSave none imgs
        now).2.1.created
      = [⟨none, imgs,
          (normalize_neural_plate (parse_neural_plate rawPlate) conf none none
            cfg).normalized_plate,
          (normalize_neural_plate (parse_neural_plate rawPlate) conf none none
            cfg).ocr_corrections_applied⟩] ∧
    (process_webhook_event cfg st rawPlate conf rejSave none imgs
        now).2.1.events_created = 1 ∧
    (process_webhook_event cfg st rawPlate conf rejSave none imgs
        now).2.1.status_ok = true := by
  unfold process_webhook_event
  dsimp only
  rw [if_pos (by simp [h])]
  exact ⟨rfl, rfl, rfl, rfl⟩

/-- C3 (amended, witness): at the concrete accepted input `"ABC123"` with a
failed save, the pipeline returns no id while reporting one created event
with a null id. -/
theorem failed_save_degrades_witness :
    (normalize_neural_plate (parse_neural_plate "ABC123".toList) 95 none none
        defaultConfig).is_valid = true ∧
    (process_webhook_event defaultConfig ⟨0, none⟩ "ABC123".toList 95
        (.ok (some 7)) none [] 5).1 = none ∧
    (process_webhook_event defaultConfig ⟨0, none⟩ "ABC123".toList 95
        (.ok (some 7)) none [] 5).2.1.events_created = 1 := by
  have h := failed_save_degrades defaultConfig ⟨0, none⟩ "ABC123".toList 95
    (.ok (some 7)) [] 5 (by decide)
  exact ⟨by decide, h.1, h.2.2.1⟩

/-- C4 (counterexample): a read that fails with an auth error is
indistinguishable from a successful read that found nothing — recent events
and events-by-plate return the empty list and the statistics query returns
the all-zero row — so the error is converted into a normal empty/zero
result instead of being surfaced as a failure. -/
theorem read_auth_error_swallowed :
    get_recent_events (fun _ => .error .auth)
        = get_recent_events (fun _ => .ok []) ∧
    get_events_by_plate (fun _ => .error .auth)
        = get_events_by_plate (fun _ => .ok []) ∧
    get_event_stats (fun _ => .error .auth)
        = get_event_stats (fun _ => .ok (some ⟨0, 0, 0, 0⟩)) :=
  ⟨rfl, rfl, rfl⟩

/-- C4 (amended): every read operation performs exactly one query attempt
(no retry, on auth error or otherwise), and an auth error is caught and
converted into the empty list (recent events, events by plate) or the
all-zero statistics row rather than surfaced. -/
theorem reads_no_retry_swallow_auth
    (f g : ℕ → Except DbErr (List EventRow))
    (s : ℕ → Except DbErr (Option EventStats)) :
    (get_recent_events f).2 = 1 ∧ (get_events_by_plate g).2 = 1 ∧
    (get_event_stats s).2 = 1 ∧
    (f 0 = .error .auth → (get_recent_events f).1 = []) ∧
    (g 0 = .error .auth → (get_events_by_plate g).1 = []) ∧
    (s 0 = .error .auth → (get_event_stats s).1 = ⟨0, 0, 0, 0⟩) := by
  unfold get_recent_events get_events_by_plate get_event_stats
  refine ⟨?_, ?_, ?_, fun hf => ?_, fun hg => ?_, fun hs => ?_⟩
  · rcases f 0 with e | rows <;> rfl
  · rcases g 0 with e | rows <;> rfl
  · rcases s 0 with e | (_ | row) <;> rfl
  · rw [hf]
  · rw [hg]
  · rw [hs]

/-- C4 (amended, witness): at the always-auth-failing oracles every
hypothesis is discharged; each read performs one attempt and returns the
empty/zero result. -/
theorem reads_no_retry_swallow_auth_witness :
    (get_recent_events (fun _ => .error .auth)).1 = [] ∧
    (get_events_by_plate (fun _ => .error .auth)).1 = [] ∧
    (get_event_stats (fun _ => .error .auth)).1 = ⟨0, 0, 0, 0⟩ ∧
    (get_recent_events (fun _ => .error .auth)).2 = 1 := by
  have h := reads_no_retry_swallow_auth (fun _ => .error .auth)
    (fun _ => .error .auth) (fun _ => .error .auth)
  exact ⟨h.2.2.2.1 rfl, h.2.2.2.2.1 rfl, h.2.2.2.2.2 rfl, h.1⟩

/-- C7: `save_event` with an auth error on the first attempt and a
registered refresh callback retries exactly once when the callback reports
success (returning the id of the second attempt, or no id when the retry
fails), does not retry when the callback reports failure, and — for every
callback and oracle — neither `save_event` nor `save_rejected_plate_wh`
ever performs more than two physical attempts. -/
theorem save_event_bounded_retry (attempts : ℕ → DbAttempt) (cb : Option Bool) :
    (attempts 0 = .authErr →
      save_event (some true) attempts =
        ((match attempts 1 with
          | .ok id => id
          | .authErr => none
          | .otherErr => none), 2)) ∧
    (attempts 0 = .authErr → save_event (some false) attempts = (none, 1)) ∧
    (save_event cb attempts).2 ≤ 2 ∧
    (save_rejected_plate_wh cb attempts).2 ≤ 2 := by
  refine ⟨fun h => ?_, fun h => ?_, ?_, ?_⟩
  · unfold save_event
    rw [h]
    cases attempts 1 <;> rfl
  · unfold save_event
    rw [h]
  · unfold save_event
    rcases attempts 0 with id | _ | _
    · exact Nat.le_succ 1
    · rcases cb with _ | b
      · exact Nat.le_succ 1
      · cases b
        · exact Nat.le_succ 1
        · rcases attempts 1 with id | _ | _ <;> exact Nat.le_refl 2
    · exact Nat.le_succ 1
  · unfold save_rejected_plate_wh
    rcases attempts 0 with id | _ | _
    · exact Nat.le_succ 1
    · rcases cb with _ | b
      · exact Nat.le_succ 1
      · cases b
        · exact Nat.le_succ 1
        · rcases attempts 1 with id | _ | _ <;> exact Nat.le_refl 2
    · exact Nat.le_succ 1

/-- C7 (witness): with an oracle failing the first attempt with an auth
error and succeeding on the second with id 42, a success-reporting callback
yields `(some 42, 2)` and a failure-reporting callback yields `(none, 1)`. -/
theorem save_event_bounded_retry_witness :
    save_event (some true)
        (fun n => if n = 0 then .authErr else .ok (some 42)) = (some 42, 2) ∧
    save_event (some false)
        (fun n => if n = 0 then .authErr else .ok (some 42)) = (none, 1) :=
  ⟨(save_event_bounded_retry
      (fun n => if n = 0 then .authErr else .ok (some 42)) none).1 rfl,
   (save_event_bounded_retry
      (fun n => if n = 0 then .authErr else .ok (some 42)) none).2.1 rfl⟩

/-- C9: a secret fetch failing with a 401/403-class auth error triggers
exactly one signer refresh followed by exactly one retry, whose outcome —
success (cached) or any failure (propagated uncaught) — is the result; a
fetch failing with a non-auth error performs no refresh and no retry and
propagates the error. -/
theorem fetch_auth_refresh_retry (name : String) (now : ℚ)
    (cache : List (String × String × ℚ)) (attempts : ℕ → FetchOutcome) :
    (attempts 0 = .authErr →
      fetch_and_cache name now cache attempts (.ok ()) =
        ((match attempts 1 with
          | .ok v => .ok (v, cacheInsert cache name (v, now))
          | .authErr => .error .auth
          | .svcErr => .error .svc
          | .otherErr => .error .other), 2, 1)) ∧
    (attempts 0 = .svcErr →
      ∀ r, fetch_and_cache name now cache attempts r = (.error .svc, 1, 0)) ∧
    (attempts 0 = .otherErr →
      ∀ r, fetch_and_cache name now cache attempts r = (.error .other, 1, 0)) := by
  refine ⟨fun h => ?_, fun h r => ?_, fun h r => ?_⟩
  · unfold fetch_and_cache
    rw [h]
    cases attempts 1 <;> rfl
  · unfold fetch_and_cache
    rw [h]
  · unfold fetch_and_cache
    rw [h]

/-- C9 (witness): with a first attempt failing 401/403 and a second attempt
returning the secret `"s3cret"`, the fetch performs two attempts and one
refresh and caches the retried value; with a non-auth `ServiceError` it
performs a single attempt, no refresh, and propagates the error. -/
theorem fetch_auth_refresh_retry_witness :
    fetch_and_cache "db_password" 10 []
        (fun n => if n = 0 then .authErr else .ok "s3cret") (.ok ()) =
      (.ok ("s3cret", [("db_password", "s3cret", 10)]), 2, 1) ∧
    fetch_and_cache "db_password" 10 [] (fun _ => .svcErr) (.ok ()) =
      (.error .svc, 1, 0) :=
  ⟨(fetch_auth_refresh_retry "db_password" 10 []
      (fun n => if n = 0 then .authErr else .ok "s3cret")).1 rfl,
   (fetch_auth_refresh_retry "db_password" 10 [] (fun _ => .svcErr)).2.1 rfl
     (.ok ())⟩

end NeuralWebhook
